import Mathlib

/-!
Shallow embedding of src/lib/multiply_const_v.cc (grextras): the generic
multiply-by-constant-vector block `multiply_const_generic<type>`, its two
volk-accelerated work adapters (`mult_fc32_work`, `mult_f32_work`) and the
per-type factory functions.

Modelling conventions:
* raw input buffers (`const type *in`) are total functions `Nat → α`;
  an output buffer written for indices `0 .. n-1` is the produced `List α`;
* the native element type of the C++ template parameter `type` is a Lean
  type `α` with a `Mul` instance (its native multiplication);
* `std::complex<double>` values are modelled exactly as pairs of rationals
  (only copying and equality of such values matter to the block itself);
* machine integers are `Int` wrapped to `w` bits where overflow matters;
* a C++ method that can throw is a function returning
  `state × Except String result`: an exception propagates while the
  mutations already performed on the object persist.
-/

namespace GrExtras

/-- A `std::complex<double>` value, modelled as an exact pair (re, im). -/
structure CDouble where
  re : Rat
  im : Rat
deriving DecidableEq, Repr, Inhabited

/-- Two of-complement wrap of an unbounded integer to `w` bits. -/
def wrapInt (w : Nat) (x : Int) : Int :=
  (x + 2 ^ (w - 1)) % 2 ^ w - 2 ^ (w - 1)

/-- A `w`-bit signed machine integer (`int8_t`, `int16_t`, `int32_t`). -/
structure IntN (w : Nat) where
  val : Int
deriving DecidableEq, Repr

instance {w : Nat} : Inhabited (IntN w) := ⟨⟨0⟩⟩

instance {w : Nat} : Mul (IntN w) := ⟨fun a b => ⟨wrapInt w (a.val * b.val)⟩⟩

instance {w : Nat} : Add (IntN w) := ⟨fun a b => ⟨wrapInt w (a.val + b.val)⟩⟩

instance {w : Nat} : Sub (IntN w) := ⟨fun a b => ⟨wrapInt w (a.val - b.val)⟩⟩

/-- `std::complex<T>` over a native component type. -/
structure Cplx (α : Type) where
  re : α
  im : α
deriving DecidableEq, Repr

instance {α : Type} [Inhabited α] : Inhabited (Cplx α) := ⟨⟨default, default⟩⟩

/-- `std::complex<T>` multiplication: componentwise products in the component
type, as the library operator* computes them. -/
instance {α : Type} [Mul α] [Add α] [Sub α] : Mul (Cplx α) :=
  ⟨fun a b => ⟨a.re * b.re - a.im * b.im, a.re * b.im + a.im * b.re⟩⟩

/-- The boost function type `volk_work_type` bound into the block: arguments
are the total element count, the input buffer and the constant vector
(`&_val.front()` exposes the whole vector; adapters read what they need), and
the result is the written output buffer.  The C++ int return value of the
bound function is discarded by the caller, so it is not modelled. -/
def VolkWork (α : Type) : Type :=
  Nat → (Nat → α) → List α → List α

end GrExtras

namespace GrExtras

/-- Modelled from the spec: the external volk routines
`volk_32fc_s32fc_multiply_32fc_a` and `volk_32f_s32f_multiply_32f_a` (the volk
library is not part of this repository) multiply each of the first
`num_points` input elements by the scalar and write them to the output. -/
def volk_multiply {α : Type} [Mul α] (num_points : Nat) (input : Nat → α)
    (scalar : α) : List α :=
  (List.range num_points).map fun i => input i * scalar

/-- `mult_fc32_work` (src/lib/multiply_const_v.cc, lines 36-48): reads the
scalar from position 0 of the constant buffer, delegates to the volk
complex-float multiply, returns `noutput_items`.  `α` stands for
`std::complex<float>` with its native multiplication. -/
def mult_fc32_work {α : Type} [Mul α] [Inhabited α] (noutput_items : Nat)
    (input : Nat → α) (val : List α) : List α × Nat :=
  let scalar := val.getD 0 default
  (volk_multiply noutput_items input scalar, noutput_items)

/-- `mult_f32_work` (src/lib/multiply_const_v.cc, lines 53-65): reads the
scalar from position 0 of the constant buffer, delegates to the volk float
multiply, returns `noutput_items`.  `α` stands for `float`. -/
def mult_f32_work {α : Type} [Mul α] [Inhabited α] (noutput_items : Nat)
    (input : Nat → α) (val : List α) : List α × Nat :=
  let scalar := val.getD 0 default
  (volk_multiply noutput_items input scalar, noutput_items)

/-- The fc32 adapter as bound by `boost::bind(&mult_fc32_work, _1, _2, _3, _4)`
(the caller discards the int return value). -/
def fc32Adapter {α : Type} [Mul α] [Inhabited α] : VolkWork α :=
  fun n input val => (mult_fc32_work n input val).1

/-- The f32 adapter as bound by `boost::bind(&mult_f32_work, _1, _2, _3, _4)`. -/
def f32Adapter {α : Type} [Mul α] [Inhabited α] : VolkWork α :=
  fun n input val => (mult_f32_work n input val).1

/-- State of a `multiply_const_generic<type>` instance: the canonical constant
vector `_original_val` (complex double), the native working constant `_val`,
the bound volk work function (empty when the scalar path is used), and the
output multiple declared to the scheduler via `set_output_multiple`
(none when never declared). -/
structure MultiplyConstGeneric (α : Type) where
  original_val : List CDouble
  val : List α
  volk_work : Option (VolkWork α)
  output_multiple : Option Nat

/-- `multiply_const_generic::_set_const` (lines 120-129): first assigns the
canonical store `_original_val` from the argument, then checks the length
against `_val` and throws `std::invalid_argument` on mismatch, otherwise
converts each element to the native type via `gr_complex_double_to_num`
(the conversion function `conv` is a parameter of the embedding).
The returned state carries the mutations performed before a throw. -/
def set_const_impl {α : Type} (conv : CDouble → α) (s : MultiplyConstGeneric α)
    (val : List CDouble) : MultiplyConstGeneric α × Except String Unit :=
  let s1 : MultiplyConstGeneric α := { s with original_val := val }
  if val.length ≠ s1.val.length then
    (s1, Except.error "set_const called with the wrong length")
  else
    ({ s1 with val := val.map conv }, Except.ok ())

/-- `multiply_const_generic::get_const` (lines 131-133): returns a copy of the
canonical constant vector. -/
def get_const {α : Type} (s : MultiplyConstGeneric α) : List CDouble :=
  s.original_val

/-- `multiply_const_generic::multiply_const_generic` (lines 74-87):
resizes `_val` to the length of the initial vector, installs the initial
constants through `set_const` (the public header interface widens the native
sequence to complex double via `toCD` and delegates to `_set_const`; this
widening is modelled from the spec since the header is not in src/), and,
when a volk work function is bound, declares an output multiple of
`max(1, volk_get_alignment() / sizeof(type))`.  `alignment` stands for the
runtime value of `volk_get_alignment()` and `sizeofType` for
`sizeof(type)`. -/
def multiply_const_generic {α : Type} [Inhabited α] (toCD : α → CDouble)
    (conv : CDouble → α) (vec : List α) (volk : Option (VolkWork α))
    (alignment sizeofType : Nat) : MultiplyConstGeneric α :=
  let s0 : MultiplyConstGeneric α :=
    { original_val := []
      val := List.replicate vec.length default
      volk_work := volk
      output_multiple := none }
  let s1 := (set_const_impl conv s0 (vec.map toCD)).1
  if volk.isSome then
    { s1 with output_multiple := some (max 1 (alignment / sizeofType)) }
  else
    s1

/-- The `vlen == 1` fast loop of `work` (lines 104-109):
`out[i] = in[i] * val` for the single constant `val`. -/
def scalar_fast {α : Type} [Mul α] (v : α) (n_nums : Nat)
    (input : Nat → α) : List α :=
  (List.range n_nums).map fun i => input i * v

/-- The general loop of `work` (lines 112-116):
`out[i] = in[i] * _val[i % _val.size()]`. -/
def scalar_general {α : Type} [Mul α] [Inhabited α] (val : List α)
    (n_nums : Nat) (input : Nat → α) : List α :=
  (List.range n_nums).map fun i => input i * val.getD (i % val.length) default

/-- `multiply_const_generic::work` (lines 89-118): when a volk work function
is bound it is invoked with total element count `noutput_items * _val.size()`
and the constant buffer, and `noutput_items` is returned; otherwise the
scalar loop runs over `n_nums = noutput_items * _val.size()` elements, with a
fast path when `_val.size() == 1`.  The method mutates no member, and its body
contains no throw, so the `Except` result is always `ok`; the returned state
is the object after the call. -/
def work {α : Type} [Mul α] [Inhabited α] (s : MultiplyConstGeneric α)
    (noutput_items : Nat) (input : Nat → α) :
    MultiplyConstGeneric α × Except String (List α × Nat) :=
  match s.volk_work with
  | some vw =>
      (s, Except.ok (vw (noutput_items * s.val.length) input s.val, noutput_items))
  | none =>
      let n_nums := noutput_items * s.val.length
      if s.val.length = 1 then
        (s, Except.ok (scalar_fast (s.val.getD 0 default) n_nums input, noutput_items))
      else
        (s, Except.ok (scalar_general s.val n_nums input, noutput_items))

/-- Modelled from the spec: `gr_complex_double_to_num` (gnuradio core, not in
this repository) narrows a complex double to a real integer native type by
taking the real component and applying the standard truncating conversion. -/
def cdoubleToIntN (w : Nat) (c : CDouble) : IntN w :=
  ⟨wrapInt w (c.re.num / (c.re.den : Int))⟩

/-- Modelled from the spec: `gr_complex_double_to_num` narrowing to a complex
integer native type, componentwise. -/
def cdoubleToCIntN (w : Nat) (c : CDouble) : Cplx (IntN w) :=
  ⟨⟨wrapInt w (c.re.num / (c.re.den : Int))⟩, ⟨wrapInt w (c.im.num / (c.im.den : Int))⟩⟩

/-- Widening of an integer native value to complex double. -/
def intNToCD {w : Nat} (x : IntN w) : CDouble :=
  ⟨(x.val : Rat), 0⟩

/-- Widening of a complex integer native value to complex double. -/
def cIntNToCD {w : Nat} (x : Cplx (IntN w)) : CDouble :=
  ⟨(x.re.val : Rat), (x.im.val : Rat)⟩

end GrExtras

namespace GrExtras

/-- `multiply_const_v::make_fc32_fc32` (lines 144-146): binds the fc32 volk
adapter.  `α` stands for `std::complex<float>`; `toCD` and `conv` are the
exact widening and narrowing between it and complex double;
`sizeof(std::complex<float>) = 8`. -/
def make_fc32_fc32 {α : Type} [Mul α] [Inhabited α] (toCD : α → CDouble)
    (conv : CDouble → α) (vec : List α) (alignment : Nat) :
    MultiplyConstGeneric α :=
  multiply_const_generic toCD conv vec (some fc32Adapter) alignment 8

/-- `multiply_const_v::make_f32_f32` (lines 148-150): binds the f32 volk
adapter.  `α` stands for `float`; `sizeof(float) = 4`. -/
def make_f32_f32 {α : Type} [Mul α] [Inhabited α] (toCD : α → CDouble)
    (conv : CDouble → α) (vec : List α) (alignment : Nat) :
    MultiplyConstGeneric α :=
  multiply_const_generic toCD conv vec (some f32Adapter) alignment 4

/-- `make_factory_function(sc32_sc32, std::complex<int32_t>)`: no volk work
function bound; `sizeof(std::complex<int32_t>) = 8`. -/
def make_sc32_sc32 (vec : List (Cplx (IntN 32))) (alignment : Nat) :
    MultiplyConstGeneric (Cplx (IntN 32)) :=
  multiply_const_generic cIntNToCD (cdoubleToCIntN 32) vec none alignment 8

/-- `make_factory_function(sc16_sc16, std::complex<int16_t>)`. -/
def make_sc16_sc16 (vec : List (Cplx (IntN 16))) (alignment : Nat) :
    MultiplyConstGeneric (Cplx (IntN 16)) :=
  multiply_const_generic cIntNToCD (cdoubleToCIntN 16) vec none alignment 4

/-- `make_factory_function(sc8_sc8, std::complex<int8_t>)`. -/
def make_sc8_sc8 (vec : List (Cplx (IntN 8))) (alignment : Nat) :
    MultiplyConstGeneric (Cplx (IntN 8)) :=
  multiply_const_generic cIntNToCD (cdoubleToCIntN 8) vec none alignment 2

/-- `make_factory_function(s32_s32, int32_t)`. -/
def make_s32_s32 (vec : List (IntN 32)) (alignment : Nat) :
    MultiplyConstGeneric (IntN 32) :=
  multiply_const_generic intNToCD (cdoubleToIntN 32) vec none alignment 4

/-- `make_factory_function(s16_s16, int16_t)`. -/
def make_s16_s16 (vec : List (IntN 16)) (alignment : Nat) :
    MultiplyConstGeneric (IntN 16) :=
  multiply_const_generic intNToCD (cdoubleToIntN 16) vec none alignment 2

/-- `make_factory_function(s8_s8, int8_t)`. -/
def make_s8_s8 (vec : List (IntN 8)) (alignment : Nat) :
    MultiplyConstGeneric (IntN 8) :=
  multiply_const_generic intNToCD (cdoubleToIntN 8) vec none alignment 1

end GrExtras

namespace GrExtras

/-! ### Helper lemmas shared by several results -/

theorem set_const_impl_frame {α : Type} (conv : CDouble → α)
    (s : MultiplyConstGeneric α) (v : List CDouble) :
    (set_const_impl conv s v).1.volk_work = s.volk_work ∧
    (set_const_impl conv s v).1.output_multiple = s.output_multiple := by
  simp only [set_const_impl]
  split <;> exact ⟨rfl, rfl⟩

theorem multiply_const_generic_volk {α : Type} [Inhabited α]
    (toCD : α → CDouble) (conv : CDouble → α) (vec : List α)
    (volk : Option (VolkWork α)) (alignment sizeofType : Nat) :
    (multiply_const_generic toCD conv vec volk alignment sizeofType).volk_work
      = volk := by
  unfold multiply_const_generic
  split
  · exact (set_const_impl_frame conv _ _).1
  · exact (set_const_impl_frame conv _ _).1

theorem work_fst {α : Type} [Mul α] [Inhabited α] (s : MultiplyConstGeneric α)
    (n : Nat) (input : Nat → α) : (work s n input).1 = s := by
  unfold work
  cases hvw : s.volk_work with
  | some vw => rfl
  | none =>
      by_cases h1 : s.val.length = 1
      · simp only [h1, if_pos]
      · simp only [h1, if_neg, if_false]

theorem scalar_general_get {α : Type} [Mul α] [Inhabited α] (val : List α)
    (n_nums : Nat) (input : Nat → α) (k : Nat) (hk : k < n_nums) :
    (scalar_general val n_nums input)[k]?
      = some (input k * val.getD (k % val.length) default) := by
  unfold scalar_general
  rw [List.getElem?_map, List.getElem?_range hk]
  rfl

theorem scalar_fast_get {α : Type} [Mul α] (v : α) (n_nums : Nat)
    (input : Nat → α) (k : Nat) (hk : k < n_nums) :
    (scalar_fast v n_nums input)[k]? = some (input k * v) := by
  unfold scalar_fast
  rw [List.getElem?_map, List.getElem?_range hk]
  rfl

end GrExtras

namespace GrExtras

/-- Claim C5: for every operator instance (accelerated or scalar path), every
requested count `n` and every input buffer, `work` returns exactly `n`
produced groups — never fewer and never more. -/
theorem work_returns_exactly_n {α : Type} [Mul α] [Inhabited α]
    (s : MultiplyConstGeneric α) (n : Nat) (input : Nat → α) :
    ∃ out : List α, (work s n input).2 = Except.ok (out, n) := by
  unfold work
  cases hvw : s.volk_work with
  | some vw => exact ⟨_, rfl⟩
  | none =>
      by_cases h1 : s.val.length = 1
      · simp only [h1, if_pos]
        exact ⟨_, rfl⟩
      · simp only [h1, if_neg, if_false]
        exact ⟨_, rfl⟩

/-- Claim C9: `work` has no side effect beyond producing the output: the state
after the call (canonical constant vector, working constant, kernel binding,
declared output multiple) is exactly the state before it, `get_const` is
unchanged, and `work` never raises a failure — it always returns `ok` with
exactly `n` produced groups. -/
theorem work_no_side_effects {α : Type} [Mul α] [Inhabited α]
    (s : MultiplyConstGeneric α) (n : Nat) (input : Nat → α) :
    (work s n input).1 = s ∧
    get_const (work s n input).1 = get_const s ∧
    ∃ out : List α, (work s n input).2 = Except.ok (out, n) := by
  refine ⟨work_fst s n input, ?_, ?_⟩
  · rw [work_fst s n input]
  · unfold work
    cases hvw : s.volk_work with
    | some vw => exact ⟨_, rfl⟩
    | none =>
        by_cases h1 : s.val.length = 1
        · simp only [h1, if_pos]
          exact ⟨_, rfl⟩
        · simp only [h1, if_neg, if_false]
          exact ⟨_, rfl⟩

/-- Claim C4: the `vlen == 1` fast path of the scalar kernel (broadcast of the
single constant, no modulo indexing) produces exactly the same output as the
general modulo-indexed loop whenever the working constant has length 1. -/
theorem fast_path_eq_general {α : Type} [Mul α] [Inhabited α] (c : α)
    (n_nums : Nat) (input : Nat → α) :
    scalar_fast c n_nums input = scalar_general [c] n_nums input := by
  unfold scalar_fast scalar_general
  simp [Nat.mod_one]

/-- Claim C7: exactly the two factories that bind an accelerated adapter
(complex-float32 and float32) declare an output multiple, equal to
`max(1, alignment / sizeof(element_type))` with `sizeof` 8 and 4
respectively; the six scalar-path factories declare none. -/
theorem output_multiple_policy {α : Type} [Mul α] [Inhabited α]
    (toCD : α → CDouble) (conv : CDouble → α) (vecF : List α)
    (c32 : List (Cplx (IntN 32))) (c16 : List (Cplx (IntN 16)))
    (c8 : List (Cplx (IntN 8))) (r32 : List (IntN 32)) (r16 : List (IntN 16))
    (r8 : List (IntN 8)) (alignment : Nat) :
    (make_fc32_fc32 toCD conv vecF alignment).output_multiple
      = some (max 1 (alignment / 8)) ∧
    (make_f32_f32 toCD conv vecF alignment).output_multiple
      = some (max 1 (alignment / 4)) ∧
    (make_sc32_sc32 c32 alignment).output_multiple = none ∧
    (make_sc16_sc16 c16 alignment).output_multiple = none ∧
    (make_sc8_sc8 c8 alignment).output_multiple = none ∧
    (make_s32_s32 r32 alignment).output_multiple = none ∧
    (make_s16_s16 r16 alignment).output_multiple = none ∧
    (make_s8_s8 r8 alignment).output_multiple = none := by
  refine ⟨rfl, rfl, ?_, ?_, ?_, ?_, ?_, ?_⟩ <;>
    exact (set_const_impl_frame _ _ _).2

end GrExtras

namespace GrExtras

/-- The six factories without an accelerated kernel bind no volk work
function: their instances always take the scalar path of `work`. -/
theorem int_factories_scalar_path (c32 : List (Cplx (IntN 32)))
    (c16 : List (Cplx (IntN 16))) (c8 : List (Cplx (IntN 8)))
    (r32 : List (IntN 32)) (r16 : List (IntN 16)) (r8 : List (IntN 8))
    (alignment : Nat) :
    (make_sc32_sc32 c32 alignment).volk_work = none ∧
    (make_sc16_sc16 c16 alignment).volk_work = none ∧
    (make_sc8_sc8 c8 alignment).volk_work = none ∧
    (make_s32_s32 r32 alignment).volk_work = none ∧
    (make_s16_s16 r16 alignment).volk_work = none ∧
    (make_s8_s8 r8 alignment).volk_work = none :=
  ⟨multiply_const_generic_volk _ _ _ _ _ _, multiply_const_generic_volk _ _ _ _ _ _,
   multiply_const_generic_volk _ _ _ _ _ _, multiply_const_generic_volk _ _ _ _ _ _,
   multiply_const_generic_volk _ _ _ _ _ _, multiply_const_generic_volk _ _ _ _ _ _⟩

/-- Claim C3: on the scalar path (no volk work function bound, as for the six
integer native types), for every `vlen ≥ 1`, every working constant of length
`vlen`, every requested count and every input buffer, the produced output
satisfies `out[k] = in[k] * val[k % vlen]` at every flattened index
`k < noutput_items * vlen`. -/
theorem scalar_path_correct {α : Type} [Mul α] [Inhabited α]
    (s : MultiplyConstGeneric α) (hvolk : s.volk_work = none)
    (hvlen : 1 ≤ s.val.length) (noutput_items : Nat) (input : Nat → α)
    (k : Nat) (hk : k < noutput_items * s.val.length) :
    ∃ out : List α,
      (work s noutput_items input).2 = Except.ok (out, noutput_items) ∧
      out[k]? = some (input k * s.val.getD (k % s.val.length) default) := by
  unfold work
  rw [hvolk]
  by_cases h1 : s.val.length = 1
  · simp only [h1, if_pos]
    refine ⟨_, rfl, ?_⟩
    rw [scalar_fast_get _ _ _ _ (by simpa [h1] using hk)]
    rw [Nat.mod_one]
  · simp only [h1, if_neg, if_false]
    exact ⟨_, rfl, scalar_general_get _ _ _ _ hk⟩

/-- Witness for C3: scenario B of the spec — native type int16, `vlen = 2`,
constant `[3, 5]`, input `[1, 1, 2, 2, 3, 3]`; at flattened index 3 the
output is `2 * 5 = 10`. -/
theorem scalar_path_correct_witness :
    (make_s16_s16 [⟨3⟩, ⟨5⟩] 16).volk_work = none ∧
    1 ≤ (make_s16_s16 [⟨3⟩, ⟨5⟩] 16).val.length ∧
    (3 : Nat) < 3 * (make_s16_s16 [⟨3⟩, ⟨5⟩] 16).val.length ∧
    ∃ out : List (IntN 16),
      (work (make_s16_s16 [⟨3⟩, ⟨5⟩] 16) 3
        (fun i => ⟨([1, 1, 2, 2, 3, 3] : List Int).getD i 0⟩)).2
          = Except.ok (out, 3) ∧
      out[3]? = some ((fun i => (⟨([1, 1, 2, 2, 3, 3] : List Int).getD i 0⟩ : IntN 16)) 3
        * (make_s16_s16 [⟨3⟩, ⟨5⟩] 16).val.getD
            (3 % (make_s16_s16 [⟨3⟩, ⟨5⟩] 16).val.length) default) :=
  ⟨(int_factories_scalar_path [] [] [] [] [] [] 16).2.2.2.2.1, by decide, by decide,
    scalar_path_correct (make_s16_s16 [⟨3⟩, ⟨5⟩] 16)
      ((int_factories_scalar_path [] [] [] [] [] [] 16).2.2.2.2.1) (by decide) 3
      (fun i => ⟨([1, 1, 2, 2, 3, 3] : List Int).getD i 0⟩) 3 (by decide)⟩

/-- Claim C6: a `set_const` call with a sequence of the correct length
succeeds and a following `get_const` returns exactly that sequence — the
canonical store is complex double-precision, independent of the native
element type and of the narrowing conversion. -/
theorem set_get_roundtrip {α : Type} (conv : CDouble → α)
    (s : MultiplyConstGeneric α) (v : List CDouble)
    (h : v.length = s.val.length) :
    (set_const_impl conv s v).2 = Except.ok () ∧
    get_const (set_const_impl conv s v).1 = v := by
  unfold set_const_impl get_const
  simp [h]

/-- Witness for C6: an int8 instance with `vlen = 2` round-trips the exact
complex-double sequence `[(1/2, 2), (7, -3)]`, which the lossy native type
could not represent. -/
theorem set_get_roundtrip_witness :
    ([⟨1/2, 2⟩, ⟨7, -3⟩] : List CDouble).length
        = (make_s8_s8 [⟨3⟩, ⟨5⟩] 16).val.length ∧
    (set_const_impl (cdoubleToIntN 8) (make_s8_s8 [⟨3⟩, ⟨5⟩] 16)
        [⟨1/2, 2⟩, ⟨7, -3⟩]).2 = Except.ok () ∧
    get_const (set_const_impl (cdoubleToIntN 8) (make_s8_s8 [⟨3⟩, ⟨5⟩] 16)
        [⟨1/2, 2⟩, ⟨7, -3⟩]).1 = [⟨1/2, 2⟩, ⟨7, -3⟩] :=
  ⟨by decide,
    (set_get_roundtrip (cdoubleToIntN 8) (make_s8_s8 [⟨3⟩, ⟨5⟩] 16)
      [⟨1/2, 2⟩, ⟨7, -3⟩] (by decide)).1,
    (set_get_roundtrip (cdoubleToIntN 8) (make_s8_s8 [⟨3⟩, ⟨5⟩] 16)
      [⟨1/2, 2⟩, ⟨7, -3⟩] (by decide)).2⟩

end GrExtras

namespace GrExtras

/-- Counterexample to claim C1 as stated: on an int16 instance constructed
with constants `[3, 5]` (so `vlen = 2`), `set_const` with the length-1
sequence `[(1, 0)]` raises the invalid-argument failure, yet a subsequent
`get_const` does NOT return the previous sequence `[(3, 0), (5, 0)]` — the
canonical store is assigned before the length check. -/
theorem set_const_failure_mutates_store :
    (set_const_impl (cdoubleToIntN 16) (make_s16_s16 [⟨3⟩, ⟨5⟩] 16)
        [⟨1, 0⟩]).2 = Except.error "set_const called with the wrong length" ∧
    ¬ (get_const (set_const_impl (cdoubleToIntN 16) (make_s16_s16 [⟨3⟩, ⟨5⟩] 16)
        [⟨1, 0⟩]).1 = get_const (make_s16_s16 [⟨3⟩, ⟨5⟩] 16)) :=
  ⟨rfl, by decide⟩

/-- Claim C1 as amended: `set_const` with a sequence of the wrong length
raises the invalid-argument failure and leaves the working constant — the
values actually multiplied by `work` — unchanged, but the canonical store is
assigned before the length check, so `get_const` afterwards returns the
rejected sequence instead of the previous one. -/
theorem set_const_wrong_length {α : Type} (conv : CDouble → α)
    (s : MultiplyConstGeneric α) (v : List CDouble)
    (h : v.length ≠ s.val.length) :
    (set_const_impl conv s v).2
        = Except.error "set_const called with the wrong length" ∧
    (set_const_impl conv s v).1.val = s.val ∧
    get_const (set_const_impl conv s v).1 = v := by
  unfold set_const_impl get_const
  simp [h]

/-- Witness for the amended C1: the concrete failed call of the
counterexample scenario — error raised, working constant `[3, 5]` kept,
canonical store overwritten with the rejected `[(1, 0)]`. -/
theorem set_const_wrong_length_witness :
    ([(⟨1, 0⟩ : CDouble)] : List CDouble).length
        ≠ (make_s16_s16 [⟨3⟩, ⟨5⟩] 16).val.length ∧
    (set_const_impl (cdoubleToIntN 16) (make_s16_s16 [⟨3⟩, ⟨5⟩] 16)
        [⟨1, 0⟩]).2 = Except.error "set_const called with the wrong length" ∧
    (set_const_impl (cdoubleToIntN 16) (make_s16_s16 [⟨3⟩, ⟨5⟩] 16)
        [⟨1, 0⟩]).1.val = (make_s16_s16 [⟨3⟩, ⟨5⟩] 16).val ∧
    get_const (set_const_impl (cdoubleToIntN 16) (make_s16_s16 [⟨3⟩, ⟨5⟩] 16)
        [⟨1, 0⟩]).1 = [⟨1, 0⟩] :=
  ⟨by decide,
    (set_const_wrong_length (cdoubleToIntN 16) (make_s16_s16 [⟨3⟩, ⟨5⟩] 16)
      [⟨1, 0⟩] (by decide)).1,
    (set_const_wrong_length (cdoubleToIntN 16) (make_s16_s16 [⟨3⟩, ⟨5⟩] 16)
      [⟨1, 0⟩] (by decide)).2.1,
    (set_const_wrong_length (cdoubleToIntN 16) (make_s16_s16 [⟨3⟩, ⟨5⟩] 16)
      [⟨1, 0⟩] (by decide)).2.2⟩

/-- Counterexample to claim C2 as stated: after the failed `set_const` of the
C1 scenario, the canonical constant vector has length 1 while the working
constant still has length 2 — the invariant
`len(WorkingConstant) == len(ConstantVector)` does not hold at all times. -/
theorem length_invariant_violated :
    ¬ ((get_const (set_const_impl (cdoubleToIntN 16)
          (make_s16_s16 [⟨3⟩, ⟨5⟩] 16) [⟨1, 0⟩]).1).length
        = (set_const_impl (cdoubleToIntN 16)
          (make_s16_s16 [⟨3⟩, ⟨5⟩] 16) [⟨1, 0⟩]).1.val.length) := by
  decide

/-- Claim C2 as amended: `len(WorkingConstant) = vlen` is established by
construction and preserved by every operation, including a failed
`set_const` (the working constant is only replaced after the length check
passes, by a converted vector of equal length); construction also
establishes `len(ConstantVector) = vlen`, but any `set_const` call —
successful or not — replaces the canonical store by its argument, so after a
failed call `len(ConstantVector)` is the rejected length, not `vlen`.
`work` touches neither. -/
theorem val_length_invariant {α : Type} [Mul α] [Inhabited α]
    (toCD : α → CDouble) (conv : CDouble → α) (vec : List α)
    (volk : Option (VolkWork α)) (alignment sizeofType : Nat)
    (s : MultiplyConstGeneric α) (v : List CDouble) (n : Nat)
    (input : Nat → α) :
    (multiply_const_generic toCD conv vec volk alignment sizeofType).val.length
        = vec.length ∧
    (multiply_const_generic toCD conv vec volk alignment
        sizeofType).original_val.length = vec.length ∧
    (set_const_impl conv s v).1.val.length = s.val.length ∧
    (set_const_impl conv s v).1.original_val = v ∧
    (work s n input).1 = s := by
  refine ⟨?_, ?_, ?_, ?_, ?_⟩
  · unfold multiply_const_generic set_const_impl
    simp
    split <;> simp
  · unfold multiply_const_generic set_const_impl
    simp
    split <;> simp
  · unfold set_const_impl
    by_cases h : v.length = s.val.length
    · simp [h]
    · simp [h]
  · simp only [set_const_impl]
    split <;> rfl
  · exact work_fst s n input

end GrExtras

namespace GrExtras

/-- Claim C8: with `vlen = 1`, an instance bound to either accelerated
adapter (complex-float32 or float32) produces, for the same input buffer,
constant and item count, exactly the same result as an instance with the
same working constant on the scalar path — the element operation applied is
identical, so the outputs agree element for element. -/
theorem accel_matches_scalar_vlen1 {α : Type} [Mul α] [Inhabited α]
    (s t : MultiplyConstGeneric α) (c : α) (n : Nat) (input : Nat → α)
    (hs : s.volk_work = some fc32Adapter ∨ s.volk_work = some f32Adapter)
    (ht : t.volk_work = none) (hsv : s.val = [c]) (htv : t.val = [c]) :
    (work s n input).2 = (work t n input).2 := by
  rcases hs with h | h <;>
  · unfold work
    rw [h, ht, hsv, htv]
    simp [fc32Adapter, f32Adapter, mult_fc32_work, mult_f32_work,
      volk_multiply, scalar_fast]

/-- Witness for C8: an accelerated-path state and a scalar-path state, both
with working constant `[2]`, produce the same result for three items of the
input `0, 1, 2, ...`. -/
theorem accel_matches_scalar_vlen1_witness :
    (work (⟨[], [(⟨2⟩ : IntN 32)], some fc32Adapter, none⟩ :
        MultiplyConstGeneric (IntN 32)) 3 (fun i => ⟨(i : Int)⟩)).2
      = (work (⟨[], [⟨2⟩], none, none⟩ : MultiplyConstGeneric (IntN 32)) 3
          (fun i => ⟨(i : Int)⟩)).2 :=
  accel_matches_scalar_vlen1
    (⟨[], [⟨2⟩], some fc32Adapter, none⟩ : MultiplyConstGeneric (IntN 32))
    (⟨[], [⟨2⟩], none, none⟩ : MultiplyConstGeneric (IntN 32))
    ⟨2⟩ 3 (fun i => ⟨(i : Int)⟩) (Or.inl rfl) rfl rfl rfl

/-- Claim C10: on the accelerated path with `vlen > 1`, the bound adapter is
invoked over `noutput_items * vlen` flattened elements but reads only the
working constant at position 0: every output element equals the
corresponding input element times `val[0]`, and any state with the same
kernel, the same `vlen` and the same `val[0]` — whatever the constants at
positions 1 and beyond — produces the same result. -/
theorem volk_path_reads_only_head {α : Type} [Mul α] [Inhabited α]
    (s : MultiplyConstGeneric α)
    (hs : s.volk_work = some fc32Adapter ∨ s.volk_work = some f32Adapter)
    (hvlen : 1 < s.val.length) (n : Nat) (input : Nat → α) (k : Nat)
    (hk : k < n * s.val.length) :
    (∃ out : List α, (work s n input).2 = Except.ok (out, n) ∧
      out.length = n * s.val.length ∧
      out[k]? = some (input k * s.val.getD 0 default)) ∧
    ∀ t : MultiplyConstGeneric α, t.volk_work = s.volk_work →
      t.val.length = s.val.length →
      t.val.getD 0 default = s.val.getD 0 default →
      (work t n input).2 = (work s n input).2 := by
  have volk_len : ∀ (m : Nat) (c : α), (volk_multiply m input c).length = m := by
    intro m c
    simp [volk_multiply]
  have volk_get : ∀ (m : Nat) (c : α), k < m →
      (volk_multiply m input c)[k]? = some (input k * c) := by
    intro m c hkm
    unfold volk_multiply
    rw [List.getElem?_map, List.getElem?_range hkm]
    rfl
  rcases hs with h | h <;>
  · constructor
    · refine ⟨volk_multiply (n * s.val.length) input (s.val.getD 0 default),
        ?_, volk_len _ _, volk_get _ _ hk⟩
      unfold work
      rw [h]
      rfl
    · intro t ht htl hth
      unfold work
      rw [ht, h]
      simp only [fc32Adapter, f32Adapter, mult_fc32_work, mult_f32_work]
      rw [htl, hth]

/-- Witness for C10: an fc32-adapter state with `vlen = 3` and working
constant `[2, 3, 4]`; with 2 requested items the adapter runs over 6
elements and output index 4 is `input 4 * 2` — the head constant, not
`val[4 % 3] = 3`. -/
theorem volk_path_reads_only_head_witness :
    ((⟨[], [⟨2⟩, ⟨3⟩, ⟨4⟩], some fc32Adapter, none⟩ :
        MultiplyConstGeneric (IntN 32)).volk_work = some fc32Adapter ∨
      (⟨[], [⟨2⟩, ⟨3⟩, ⟨4⟩], some fc32Adapter, none⟩ :
        MultiplyConstGeneric (IntN 32)).volk_work = some f32Adapter) ∧
    1 < ([(⟨2⟩ : IntN 32), ⟨3⟩, ⟨4⟩] : List (IntN 32)).length ∧
    (4 : Nat) < 2 * ([(⟨2⟩ : IntN 32), ⟨3⟩, ⟨4⟩] : List (IntN 32)).length ∧
    ((∃ out : List (IntN 32),
      (work (⟨[], [⟨2⟩, ⟨3⟩, ⟨4⟩], some fc32Adapter, none⟩ :
          MultiplyConstGeneric (IntN 32)) 2 (fun i => ⟨(i : Int)⟩)).2
        = Except.ok (out, 2) ∧
      out.length = 2 * ([(⟨2⟩ : IntN 32), ⟨3⟩, ⟨4⟩] : List (IntN 32)).length ∧
      out[4]? = some ((fun i => (⟨(i : Int)⟩ : IntN 32)) 4
        * ([(⟨2⟩ : IntN 32), ⟨3⟩, ⟨4⟩] : List (IntN 32)).getD 0 default)) ∧
    ∀ t : MultiplyConstGeneric (IntN 32),
      t.volk_work = (⟨[], [⟨2⟩, ⟨3⟩, ⟨4⟩], some fc32Adapter, none⟩ :
          MultiplyConstGeneric (IntN 32)).volk_work →
      t.val.length = ([(⟨2⟩ : IntN 32), ⟨3⟩, ⟨4⟩] : List (IntN 32)).length →
      t.val.getD 0 default
          = ([(⟨2⟩ : IntN 32), ⟨3⟩, ⟨4⟩] : List (IntN 32)).getD 0 default →
      (work t 2 (fun i => ⟨(i : Int)⟩)).2
        = (work (⟨[], [⟨2⟩, ⟨3⟩, ⟨4⟩], some fc32Adapter, none⟩ :
            MultiplyConstGeneric (IntN 32)) 2 (fun i => ⟨(i : Int)⟩)).2) :=
  ⟨Or.inl rfl, by decide, by decide,
    volk_path_reads_only_head
      (⟨[], [⟨2⟩, ⟨3⟩, ⟨4⟩], some fc32Adapter, none⟩ :
        MultiplyConstGeneric (IntN 32))
      (Or.inl rfl) (by decide) 2 (fun i => ⟨(i : Int)⟩) 4 (by decide)⟩

end GrExtras
